import Mathlib

/-!
Verification development for the witchcraft notification-streaming client
(crates/notifications/src/witchcraft_client.rs and the consumer in
crates/collab_ui/src/notification_panel.rs).

The wire layer is modelled at the level of the serde data model: a JSON
value type, the message enums with their serde attributes translated into
explicit encode/decode functions, and the driver loop of Connection::spawn
as a step function over an explicit state, fed a list of events (the three
select arms: keepalive timer, outbound queue, inbound frames).
-/

/-- JSON values. Object fields keep their order, matching the serialized
field order of serde derive. -/
inductive Json where
  | null : Json
  | bool (b : Bool) : Json
  | num (n : Nat) : Json
  | str (s : String) : Json
  | arr (xs : List Json) : Json
  | obj (fields : List (String × Json)) : Json

/-- First value bound to key `k` in an object's field list, as serde's
field lookup behaves for maps decoded from JSON text. -/
def jsonLookup (fields : List (String × Json)) (k : String) : Option Json :=
  match fields with
  | [] => none
  | (k', v) :: rest => if k' = k then some v else jsonLookup rest k

/-- WitchcraftNotification (witchcraft_client.rs lines 43-57): the
notification item carried by inbound frames. Field names are the Rust
field names; the serde renames (actionUrl, actionLabel, createdAt, type)
live in the encode/decode functions. `priority` is `u8` in the source;
modelled as Nat (no arithmetic on it occurs anywhere in the claims). -/
structure WitchcraftNotification where
  id : String
  title : String
  message : String
  notification_type : String
  priority : Nat
  action_url : Option String
  action_label : Option String
  created_at : String
  deriving Repr, DecidableEq

/-- WitchcraftMessage (witchcraft_client.rs lines 22-41): the inbound
tagged union, serde internally tagged on "type" with snake_case variant
names. -/
inductive WitchcraftMessage where
  | Connected (user_id : String) (timestamp : String) (method : Option String)
  | UnreadNotifications (count : Nat) (notifications : List WitchcraftNotification)
  | Notification (event : String) (data : WitchcraftNotification)
  | Pong
  deriving Repr, DecidableEq

/-- WitchcraftOutgoingMessage (witchcraft_client.rs lines 59-67): the
outbound tagged union, serde internally tagged on "type" with snake_case
variant names and `notification_id` renamed to "notificationId". -/
inductive WitchcraftOutgoingMessage where
  | MarkRead (notification_id : String)
  | Ping
  deriving Repr, DecidableEq

/-- Serde serialization of `WitchcraftOutgoingMessage` to a JSON value:
internally tagged (`tag = "type"`, `rename_all = "snake_case"`), tag field
first, then the variant fields in declaration order, with the
`notificationId` rename from line 63. -/
def serializeOutgoing : WitchcraftOutgoingMessage → Json
  | .MarkRead nid => .obj [("type", .str "mark_read"), ("notificationId", .str nid)]
  | .Ping => .obj [("type", .str "ping")]

/-- Serde serialization of `WitchcraftNotification` to a JSON value:
fields in declaration order, renames `type`, `actionUrl`, `actionLabel`,
`createdAt` applied, and the two optional fields skipped when `None`
(`skip_serializing_if = "Option::is_none"`, lines 51-54). -/
def serializeNotification (n : WitchcraftNotification) : Json :=
  .obj ([("id", .str n.id), ("title", .str n.title), ("message", .str n.message),
         ("type", .str n.notification_type), ("priority", .num n.priority)]
        ++ (match n.action_url with | some u => [("actionUrl", Json.str u)] | none => [])
        ++ (match n.action_label with | some l => [("actionLabel", Json.str l)] | none => [])
        ++ [("createdAt", .str n.created_at)])

/-- Decode a JSON value as a String, as serde does for a `String` field. -/
def asStr : Json → Option String
  | .str s => some s
  | _ => none

/-- Decode a JSON value as a Nat, as serde does for `usize`/`u8` fields
(the source never sends negative or fractional numbers here). -/
def asNum : Json → Option Nat
  | .num n => some n
  | _ => none

/-- Decode an optional string field carrying `#[serde(default)]`
semantics: a missing key or `null` yields `none`, a string yields
`some`, anything else is a decode error. -/
def decodeOptStr : Option Json → Option (Option String)
  | none => some none
  | some .null => some none
  | some (.str s) => some (some s)
  | some _ => none

/-- Serde deserialization of `WitchcraftNotification` from a JSON value,
inverse of the derive on lines 43-57: required fields `id`, `title`,
`message`, `type`, `priority`, `createdAt`; optional `actionUrl`,
`actionLabel` (absent or null decode to `None`). Unknown fields are
ignored, as serde does by default. -/
def deserializeNotification : Json → Option WitchcraftNotification
  | .obj fields => do
    let id ← jsonLookup fields "id" >>= asStr
    let title ← jsonLookup fields "title" >>= asStr
    let message ← jsonLookup fields "message" >>= asStr
    let ntype ← jsonLookup fields "type" >>= asStr
    let priority ← jsonLookup fields "priority" >>= asNum
    let action_url ← decodeOptStr (jsonLookup fields "actionUrl")
    let action_label ← decodeOptStr (jsonLookup fields "actionLabel")
    let created_at ← jsonLookup fields "createdAt" >>= asStr
    some ⟨id, title, message, ntype, priority, action_url, action_label, created_at⟩
  | _ => none

/-- Serde deserialization of the inbound `WitchcraftMessage` from a JSON
value: internally tagged on "type" (lines 22-41). "connected" requires
`userId` and `timestamp` and takes `method` with `#[serde(default)]`
(line 29); "unread_notifications" requires `count` and the array
`notifications`; "notification" requires `event` and `data`; "pong" is a
unit variant. Any other or missing tag is a decode error. -/
def decodeInbound : Json → Option WitchcraftMessage
  | .obj fields =>
    match jsonLookup fields "type" with
    | some (.str "connected") => do
      let u ← jsonLookup fields "userId" >>= asStr
      let ts ← jsonLookup fields "timestamp" >>= asStr
      let m ← decodeOptStr (jsonLookup fields "method")
      some (.Connected u ts m)
    | some (.str "unread_notifications") => do
      let c ← jsonLookup fields "count" >>= asNum
      let arr ← jsonLookup fields "notifications"
      match arr with
      | .arr items => do
        let ns ← items.mapM deserializeNotification
        some (.UnreadNotifications c ns)
      | _ => none
    | some (.str "notification") => do
      let ev ← jsonLookup fields "event" >>= asStr
      let d ← jsonLookup fields "data"
      let n ← deserializeNotification d
      some (.Notification ev n)
    | some (.str "pong") => some .Pong
    | _ => none
  | _ => none

/-- One hexadecimal digit, lower case, as serde_json prints in escapes. -/
def hexDigit (n : Nat) : Char :=
  if n < 10 then Char.ofNat (48 + n) else Char.ofNat (87 + n)

/-- serde_json's escaping of one character inside a JSON string: quote,
backslash, the short escapes for control characters with one, and
\u00XX for the remaining control characters. -/
def escapeChar (c : Char) : String :=
  if c = '"' then "\\\""
  else if c = '\\' then "\\\\"
  else if c = '\n' then "\\n"
  else if c = '\r' then "\\r"
  else if c = '\t' then "\\t"
  else if c.toNat = 8 then "\\b"
  else if c.toNat = 12 then "\\f"
  else if c.toNat < 32 then
    String.mk ['\\', 'u', '0', '0', hexDigit (c.toNat / 16), hexDigit (c.toNat % 16)]
  else String.singleton c

/-- serde_json's escaping of a JSON string body. -/
def escapeString (s : String) : String :=
  s.data.foldl (fun acc c => acc ++ escapeChar c) ""

mutual

/-- Compact rendering of a JSON value, as serde_json::to_string emits it
(no whitespace, object fields in order). -/
def renderJson : Json → String
  | .null => "null"
  | .bool true => "true"
  | .bool false => "false"
  | .num n => toString n
  | .str s => "\"" ++ escapeString s ++ "\""
  | .arr xs => "[" ++ renderArr xs ++ "]"
  | .obj fs => "\x7b" ++ renderFields fs ++ "\x7d"

/-- Comma-separated rendering of array elements. -/
def renderArr : List Json → String
  | [] => ""
  | [x] => renderJson x
  | x :: y :: xs => renderJson x ++ "," ++ renderArr (y :: xs)

/-- Comma-separated rendering of object fields. -/
def renderFields : List (String × Json) → String
  | [] => ""
  | [(k, v)] => "\"" ++ escapeString k ++ "\":" ++ renderJson v
  | (k, v) :: f :: fs =>
    "\"" ++ escapeString k ++ "\":" ++ renderJson v ++ "," ++ renderFields (f :: fs)

end

/-- The payload of an inbound text frame, abstracted to the result of the
UTF-8 check and the JSON-text parse that serde_json::from_str performs
before deserializing (witchcraft_client.rs lines 194-196): the bytes are
not UTF-8, or they parse as the JSON value carried, or they are UTF-8 but
not valid JSON. -/
inductive TextPayload where
  | nonUtf8
  | json (j : Json)
  | invalidJson

/-- An inbound websocket frame as the driver loop dispatches on it
(witchcraft_client.rs lines 192-264): the opcodes the match treats
distinctly, with text frames carrying their payload. -/
inductive Frame where
  | text (p : TextPayload)
  | close
  | ping
  | pong
  | other

/-- An item placed on the inbound mpsc channel: the stream has item type
Result of WitchcraftMessage, so the driver forwards either a decoded
message (line 225) or a parse error (lines 238-241). The error's message
text is abstracted. -/
inductive InboundItem where
  | ok (m : WitchcraftMessage)
  | parseError
  deriving Repr, DecidableEq

/-- State of the driver loop spawned by Connection::spawn
(witchcraft_client.rs lines 144-269). `running` is false once the loop
has hit a `break`; `consumerAlive` records whether the receiver end of
the inbound channel still exists (unbounded_send fails exactly when it
does not); `timerDeadline` is the absolute time in seconds at which the
keepalive timer will next fire; `sent` is the sequence of outbound
messages successfully written to the socket; `inboundItems` is the
sequence of items forwarded to the inbound channel. -/
structure DriverState where
  running : Bool
  consumerAlive : Bool
  timerDeadline : Nat
  sent : List WitchcraftOutgoingMessage
  inboundItems : List InboundItem
  deriving Repr, DecidableEq

/-- The driver state right after spawn: loop running, consumer present,
keepalive timer armed for KEEPALIVE_INTERVAL = 30 seconds (lines 20,
147), nothing sent or forwarded. -/
def initDriverState : DriverState :=
  { running := true, consumerAlive := true, timerDeadline := 30,
    sent := [], inboundItems := [] }

/-- unbounded_send on the inbound channel (lines 225-228 and 238-244):
if the receiver still exists the item is appended and the loop
continues; otherwise the send fails and the loop breaks without
delivering the item. -/
def forwardItem (s : DriverState) (it : InboundItem) : DriverState :=
  if s.consumerAlive then { s with inboundItems := s.inboundItems ++ [it] }
  else { s with running := false }

/-- The inbound-frame arm of the select (lines 186-265): text frames are
UTF-8-checked, JSON-parsed and serde-decoded; a decoded Pong hits the
`continue` on line 222 and is not forwarded; any other decoded message
is forwarded; a UTF-8 payload that fails to decode forwards a parse
error; a non-UTF-8 payload is only logged; Close breaks the loop;
transport Ping/Pong and other opcodes are only logged. -/
def handleFrame (s : DriverState) : Frame → DriverState
  | .text .nonUtf8 => s
  | .text (.json j) =>
    match decodeInbound j with
    | some .Pong => s
    | some m => forwardItem s (.ok m)
    | none => forwardItem s .parseError
  | .text .invalidJson => forwardItem s .parseError
  | .close => { s with running := false }
  | .ping => s
  | .pong => s
  | .other => s

/-- One ready event of the select_biased (lines 155-266). `timerFire`
carries the absolute time at which the keepalive timer fired and whether
the socket write succeeded; `outgoingMsg` is a message popped from the
outbound queue together with its write outcome; `outgoingClosed` is
outgoing_rx.next() returning None (all senders dropped, queue drained);
`inboundFrame` is a frame from the socket; `inboundEnded` is rx.next()
returning None. -/
inductive DriverEvent where
  | timerFire (now : Nat) (sendOk : Bool)
  | outgoingMsg (m : WitchcraftOutgoingMessage) (sendOk : Bool)
  | outgoingClosed
  | inboundFrame (f : Frame)
  | inboundEnded

/-- One iteration of the driver loop on a ready event. Once the loop has
broken (`running = false`) nothing further happens. Timer arm (lines
156-166): serde_json::to_string of Ping always succeeds, so the ping is
written; a write failure breaks, a success re-arms the timer 30 seconds
from now. Outbound arm (lines 167-185): a popped message is serialized
(always succeeds for this type) and written, a write failure breaks;
None breaks. Inbound arm: `handleFrame`; a closed stream breaks. -/
def step (s : DriverState) (e : DriverEvent) : DriverState :=
  if s.running then
    match e with
    | .timerFire now sendOk =>
      if sendOk then
        { s with sent := s.sent ++ [.Ping], timerDeadline := now + 30 }
      else { s with running := false }
    | .outgoingMsg m sendOk =>
      if sendOk then { s with sent := s.sent ++ [m] }
      else { s with running := false }
    | .outgoingClosed => { s with running := false }
    | .inboundFrame f => handleFrame s f
    | .inboundEnded => { s with running := false }
  else s

/-- The driver loop over a sequence of ready events. -/
def runDriver (s : DriverState) : List DriverEvent → DriverState
  | [] => s
  | e :: es => runDriver (step s e) es

/-- Validity of the timer occurrences in an event trace with respect to
the keepalive timer's semantics: starting from deadline `d`, the timer
cannot fire before its deadline, and a fire at time `now` re-arms it for
`now + 30` (executor.timer(KEEPALIVE_INTERVAL), lines 147 and 165). -/
def timerValid (d : Nat) : List DriverEvent → Bool
  | [] => true
  | .timerFire now _ :: es => decide (d ≤ now) && timerValid (now + 30) es
  | _ :: es => timerValid d es

/-- The sequence of events the outbound channel delivers once every
sender handle has been dropped with `queue` still enqueued: futures'
unbounded mpsc yields the buffered messages in FIFO order and only then
reports None. Socket writes are taken to succeed (the claim concerns the
healthy-socket shutdown path). -/
def outboundDrainEvents (queue : List WitchcraftOutgoingMessage) : List DriverEvent :=
  queue.map (fun m => DriverEvent.outgoingMsg m true) ++ [DriverEvent.outgoingClosed]

/-- Consumer-side state of NotificationPanel relevant to the witchcraft
stream: the deduplicated list of received items
(`witchcraft_notifications`) and the number of toasts shown. -/
structure PanelState where
  witchcraft_notifications : List WitchcraftNotification
  toastsShown : Nat
  deriving Repr, DecidableEq

/-- The panel state before any stream message arrives. -/
def initPanelState : PanelState := { witchcraft_notifications := [], toastsShown := 0 }

/-- One iteration of the for-loop in the UnreadNotifications arm
(notification_panel.rs lines 231-235 and 891-895): push the item only if
no already-held item has its id. -/
def insertIfNew (acc : List WitchcraftNotification) (n : WitchcraftNotification) :
    List WitchcraftNotification :=
  if acc.any (fun x => x.id = n.id) then acc else acc ++ [n]

/-- The panel's message-receiver loop body (notification_panel.rs lines
222-264, identically lines 864-935): Connected only flips a flag;
UnreadNotifications folds its items through the dedup-push loop;
Notification is dedup-pushed and, exactly when actually pushed, shows a
toast; Pong is ignored. -/
def handleMessage (s : PanelState) : WitchcraftMessage → PanelState
  | .Connected _ _ _ => s
  | .UnreadNotifications _ items =>
    { s with witchcraft_notifications := items.foldl insertIfNew s.witchcraft_notifications }
  | .Notification _ d =>
    if s.witchcraft_notifications.any (fun x => x.id = d.id) then s
    else { witchcraft_notifications := s.witchcraft_notifications ++ [d],
           toastsShown := s.toastsShown + 1 }
  | .Pong => s

/-- The panel state after a session delivering `msgs` in order. -/
def runPanel (msgs : List WitchcraftMessage) : PanelState :=
  msgs.foldl handleMessage initPanelState

/-- The NotificationItem ids a message carries into the panel. -/
def messageIds : WitchcraftMessage → List String
  | .UnreadNotifications _ items => items.map (fun n => n.id)
  | .Notification _ d => [d.id]
  | _ => []

/-- All NotificationItem ids observed in a session's messages. -/
def sessionIds (msgs : List WitchcraftMessage) : List String :=
  (msgs.map messageIds).flatten

/-- Client-side credential state of WitchcraftNotificationClient: the
single token slot (witchcraft_client.rs line 77). -/
structure ClientState where
  token : Option String
  deriving Repr, DecidableEq

/-- The observable outcome of a connect call, up to the network
boundary: the client proceeds to open the websocket with some token
(caching it and dialing the URL built from it), or returns an error
before any connection attempt, or blocks forever on the credential
lock — `deadlock` denotes non-termination of the call. -/
inductive ConnectOutcome where
  | attempt (cached : ClientState) (url : String)
  | err (msg : String)
  | deadlock
  deriving Repr, DecidableEq

/-- connect_with_access_code (witchcraft_client.rs lines 88-106). Its
first statement is `*self.token.write() = Some(access_code.clone())`
(line 90) on the parking_lot RwLock guarding the token slot.
parking_lot locks are not reentrant, so that write blocks forever when
the calling thread already holds a read guard on the same lock;
`readGuardsHeld` is the number of such guards live at the call. With
the lock free, the access code is cached and the websocket URL formed
from it is dialed. -/
def connect_with_access_code (readGuardsHeld : Nat) (code : String) : ConnectOutcome :=
  if readGuardsHeld = 0 then
    .attempt { token := some code }
      ("wss://witchcraft.insanelabs.org/api/notifications/ws?token=" ++ code)
  else .deadlock

/-- connect (witchcraft_client.rs lines 108-117): binds
`self.token.read()` and keeps that read guard live for the rest of the
body. With a cached token it returns into connect_with_access_code with
the guard still held (so one read guard is outstanding at the nested
write); with none it returns the no-credential error without any
connection attempt. -/
def connect (s : ClientState) : ConnectOutcome :=
  match s.token with
  | some t => connect_with_access_code 1 t
  | none => .err "No access code provided. Please provide an access code or API key."

/-- Keys of a JSON object, in serialized order. -/
def objKeys : Json → List String
  | .obj fs => fs.map (fun f => f.1)
  | _ => []

/-- Field lookup on a JSON object value. -/
def objLookup (j : Json) (k : String) : Option Json :=
  match j with
  | .obj fs => jsonLookup fs k
  | _ => none

/-- A text payload on which serde_json::from_str fails to produce a
WitchcraftMessage: non-UTF-8 bytes, invalid JSON text, or JSON that does
not deserialize (unknown tag, missing field, wrong field type). -/
def decodeFails : TextPayload → Bool
  | .nonUtf8 => true
  | .invalidJson => true
  | .json j => (decodeInbound j).isNone

/-- Whether a text payload passed the UTF-8 check (only such payloads
reach serde_json::from_str, line 194). -/
def utf8Ok : TextPayload → Bool
  | .nonUtf8 => false
  | _ => true

/-- The ids held by the panel, in display order. -/
def panelIds (s : PanelState) : List String :=
  s.witchcraft_notifications.map (fun n => n.id)

/-- The concrete wire frame the server sends as application-level
keepalive response. -/
def pongJson : Json := .obj [("type", Json.str "pong")]

/-- A concrete "connected" frame without the optional "method" key. -/
def connectedJson : Json :=
  .obj [("type", Json.str "connected"), ("userId", Json.str "u"), ("timestamp", Json.str "t")]

/-- A concrete notification item used to instantiate the theorems. -/
def demoItem : WitchcraftNotification :=
  { id := "a", title := "t", message := "m", notification_type := "info",
    priority := 1, action_url := none, action_label := none, created_at := "c" }

/-- A second item redelivered with the same id as `demoItem`. -/
def demoItem2 : WitchcraftNotification :=
  { id := "a", title := "t2", message := "m2", notification_type := "warning",
    priority := 2, action_url := none, action_label := none, created_at := "c2" }

/-- Once the loop has broken, later ready events have no effect at all. -/
theorem runDriver_stopped (s : DriverState) (es : List DriverEvent)
    (h : s.running = false) : runDriver s es = s := by
  induction es with
  | nil => rfl
  | cons e es ih => simp [runDriver, step, h, ih]

/-- C9: the code evaluated at the failing input. With no cached token,
connect() returns the no-credential error without any connection
attempt, as claimed; but with a cached token it does not proceed: the
read guard bound at the top of connect is still live when
connect_with_access_code write()s the same non-reentrant parking_lot
RwLock (line 90), so the call blocks forever. A direct
connect_with_access_code call with no guard outstanding (the path the
UI uses) does proceed with the token, showing the deadlock comes
precisely from the guard held across the nested call. -/
theorem connect_cached_deadlocks :
    connect { token := none }
      = .err "No access code provided. Please provide an access code or API key."
    ∧ connect { token := some "tok" } = .deadlock
    ∧ connect_with_access_code 0 "tok"
      = .attempt { token := some "tok" }
          "wss://witchcraft.insanelabs.org/api/notifications/ws?token=tok" :=
  ⟨rfl, rfl, rfl⟩

/-- C10: a "connected" frame whose JSON omits the "method" key still
decodes successfully, to a Connected message with method = none. -/
theorem connected_method_defaults (u ts : String) :
    decodeInbound (.obj [("type", Json.str "connected"), ("userId", Json.str u),
      ("timestamp", Json.str ts)]) = some (.Connected u ts none) := by
  simp [decodeInbound, jsonLookup, asStr, decodeOptStr]

/-- C8: MarkRead serializes to exactly the JSON text with keys "type" =
"mark_read" and "notificationId" = the id; the outbound heartbeat
serializes to exactly the ping object; WitchcraftNotification keeps the
external key mapping (actionUrl, actionLabel, createdAt, type) exactly,
round-trips through serialization, and omits the optional keys when
absent. -/
theorem wire_format_exact (nid : String) (n : WitchcraftNotification)
    (hesc : escapeString nid = nid) :
    renderJson (serializeOutgoing (.MarkRead nid))
      = "\x7b\"type\":\"mark_read\",\"notificationId\":\"" ++ nid ++ "\"\x7d"
    ∧ renderJson (serializeOutgoing .Ping) = "\x7b\"type\":\"ping\"\x7d"
    ∧ deserializeNotification (serializeNotification n) = some n
    ∧ objLookup (serializeNotification n) "actionUrl" = n.action_url.map Json.str
    ∧ objLookup (serializeNotification n) "actionLabel" = n.action_label.map Json.str
    ∧ objLookup (serializeNotification n) "createdAt" = some (.str n.created_at)
    ∧ objLookup (serializeNotification n) "type" = some (.str n.notification_type)
    ∧ (n.action_url = none → "actionUrl" ∉ objKeys (serializeNotification n))
    ∧ (n.action_label = none → "actionLabel" ∉ objKeys (serializeNotification n)) := by
  obtain ⟨id, title, message, ntype, priority, au, al, ca⟩ := n
  refine ⟨?_, ?_, ?_, ?_, ?_, ?_, ?_, ?_, ?_⟩
  · simp only [serializeOutgoing, renderJson, renderFields]
    rw [show escapeString "type" = "type" from rfl,
        show escapeString "mark_read" = "mark_read" from rfl,
        show escapeString "notificationId" = "notificationId" from rfl, hesc]
    apply String.ext
    simp [String.data_append]
  · simp only [serializeOutgoing, renderJson, renderFields]
    rw [show escapeString "type" = "type" from rfl,
        show escapeString "ping" = "ping" from rfl]
    apply String.ext
    simp [String.data_append]
  · cases au <;> cases al <;>
      simp [serializeNotification, deserializeNotification, jsonLookup, asStr, asNum,
        decodeOptStr]
  · cases au <;> cases al <;> simp [serializeNotification, objLookup, jsonLookup]
  · cases au <;> cases al <;> simp [serializeNotification, objLookup, jsonLookup]
  · cases au <;> cases al <;> simp [serializeNotification, objLookup, jsonLookup]
  · cases au <;> cases al <;> simp [serializeNotification, objLookup, jsonLookup]
  · intro h
    cases au <;> cases al <;> simp_all [serializeNotification, objKeys]
  · intro h
    cases au <;> cases al <;> simp_all [serializeNotification, objKeys]

/-- Witness for C8 at the id "abc" and a concrete item. -/
theorem wire_format_exact_witness :
    renderJson (serializeOutgoing (.MarkRead "abc"))
      = "\x7b\"type\":\"mark_read\",\"notificationId\":\"" ++ "abc" ++ "\"\x7d"
    ∧ deserializeNotification (serializeNotification demoItem) = some demoItem :=
  ⟨(wire_format_exact "abc" demoItem rfl).1,
   (wire_format_exact "abc" demoItem rfl).2.2.1⟩

/-- A running driver with a live consumer, handed a text frame that
decodes to a non-Pong message, appends exactly that message to the
inbound channel and keeps running. -/
theorem step_decode_ok (s : DriverState) (j : Json) (m : WitchcraftMessage)
    (hrun : s.running = true) (hcons : s.consumerAlive = true)
    (hdec : decodeInbound j = some m) (hm : m ≠ .Pong) :
    step s (.inboundFrame (.text (.json j)))
      = { s with inboundItems := s.inboundItems ++ [.ok m] } := by
  cases m with
  | Pong => exact absurd rfl hm
  | Connected u ts mth => simp [step, hrun, handleFrame, hdec, forwardItem, hcons]
  | UnreadNotifications c ns => simp [step, hrun, handleFrame, hdec, forwardItem, hcons]
  | Notification e d => simp [step, hrun, handleFrame, hdec, forwardItem, hcons]

/-- A running driver with a live consumer, handed a text frame that
fails to decode, appends one parse-error item when the payload was UTF-8
(and nothing otherwise) and keeps running. -/
theorem step_decode_fail (s : DriverState) (p : TextPayload)
    (hrun : s.running = true) (hcons : s.consumerAlive = true)
    (hbad : decodeFails p = true) :
    step s (.inboundFrame (.text p))
      = { s with inboundItems :=
            s.inboundItems ++ (if utf8Ok p then [.parseError] else []) } := by
  obtain ⟨run, cons, dl, sent, items⟩ := s
  subst hrun
  subst hcons
  cases p with
  | nonUtf8 => simp [step, handleFrame, utf8Ok]
  | invalidJson => simp [step, handleFrame, forwardItem, utf8Ok]
  | json j =>
    have h : decodeInbound j = none := by
      simpa [decodeFails, Option.isNone_iff_eq_none] using hbad
    simp [step, handleFrame, h, forwardItem, utf8Ok]

/-- C1: an inbound text frame whose payload fails to decode leaves the
driver loop running rather than terminating it, and a subsequent
well-formed frame is still decoded and delivered to the consumer
stream. -/
theorem malformed_then_delivered (s : DriverState) (p : TextPayload) (j : Json)
    (m : WitchcraftMessage) (hrun : s.running = true) (hcons : s.consumerAlive = true)
    (hbad : decodeFails p = true) (hdec : decodeInbound j = some m) (hm : m ≠ .Pong) :
    (step s (.inboundFrame (.text p))).running = true
    ∧ (step (step s (.inboundFrame (.text p))) (.inboundFrame (.text (.json j)))).inboundItems
        = (step s (.inboundFrame (.text p))).inboundItems ++ [.ok m]
    ∧ (step (step s (.inboundFrame (.text p))) (.inboundFrame (.text (.json j)))).running
        = true := by
  have h1 := step_decode_fail s p hrun hcons hbad
  have h2 : (step s (.inboundFrame (.text p))).running = true := by rw [h1]; exact hrun
  have h3 : (step s (.inboundFrame (.text p))).consumerAlive = true := by
    rw [h1]; exact hcons
  rw [step_decode_ok (step s (.inboundFrame (.text p))) j m h2 h3 hdec hm]
  exact ⟨h2, rfl, h2⟩

/-- Witness for C1: a frame with an unknown tag followed by a well-formed
"connected" frame; the second is still delivered. -/
theorem malformed_then_delivered_witness :
    (step initDriverState (.inboundFrame (.text .invalidJson))).running = true
    ∧ (step (step initDriverState (.inboundFrame (.text .invalidJson)))
        (.inboundFrame (.text (.json connectedJson)))).inboundItems
        = (step initDriverState (.inboundFrame (.text .invalidJson))).inboundItems
          ++ [.ok (.Connected "u" "t" none)]
    ∧ (step (step initDriverState (.inboundFrame (.text .invalidJson)))
        (.inboundFrame (.text (.json connectedJson)))).running = true :=
  malformed_then_delivered initDriverState .invalidJson connectedJson
    (.Connected "u" "t" none) rfl rfl rfl rfl (by decide)

/-- C2 counterexample: the frame whose JSON is the pong object decodes
successfully (to the Pong variant of the tagged union), yet the driver
forwards nothing to the inbound channel: the Pong arm of the match hits
`continue` (witchcraft_client.rs line 222) before the unbounded_send. -/
theorem pong_not_forwarded_cex :
    decodeInbound pongJson = some WitchcraftMessage.Pong
    ∧ (step initDriverState (.inboundFrame (.text (.json pongJson)))).inboundItems = []
    ∧ (step initDriverState (.inboundFrame (.text (.json pongJson)))).running = true :=
  ⟨rfl, rfl, rfl⟩

/-- C2 (amended): every successfully decoded inbound text frame except
the application-level Pong is forwarded to the inbound channel, and upon
forwarding the driver terminates exactly when the channel has no
remaining consumer (the item is then not delivered); a decoded Pong is
absorbed without being forwarded and the loop continues. -/
theorem forward_decoded (s : DriverState) (j : Json) (m : WitchcraftMessage)
    (hrun : s.running = true) (hdec : decodeInbound j = some m) :
    (m ≠ .Pong →
      (step s (.inboundFrame (.text (.json j)))).inboundItems
          = s.inboundItems ++ (if s.consumerAlive then [.ok m] else [])
        ∧ (step s (.inboundFrame (.text (.json j)))).running = s.consumerAlive)
    ∧ (m = .Pong → step s (.inboundFrame (.text (.json j))) = s) := by
  constructor
  · intro hm
    cases m with
    | Pong => exact absurd rfl hm
    | Connected u ts mth =>
      cases hcons : s.consumerAlive <;>
        simp [step, hrun, handleFrame, hdec, forwardItem, hcons]
    | UnreadNotifications c ns =>
      cases hcons : s.consumerAlive <;>
        simp [step, hrun, handleFrame, hdec, forwardItem, hcons]
    | Notification e d =>
      cases hcons : s.consumerAlive <;>
        simp [step, hrun, handleFrame, hdec, forwardItem, hcons]
  · intro hm
    subst hm
    simp [step, hrun, handleFrame, hdec]

/-- Witness for C2 (amended): a "connected" frame is forwarded with the
consumer present, and the pong frame is absorbed. -/
theorem forward_decoded_witness :
    ((step initDriverState (.inboundFrame (.text (.json connectedJson)))).inboundItems
        = initDriverState.inboundItems
          ++ (if initDriverState.consumerAlive
              then [.ok (.Connected "u" "t" none)] else [])
      ∧ (step initDriverState (.inboundFrame (.text (.json connectedJson)))).running
          = initDriverState.consumerAlive)
    ∧ step initDriverState (.inboundFrame (.text (.json pongJson))) = initDriverState :=
  ⟨(forward_decoded initDriverState connectedJson (.Connected "u" "t" none) rfl rfl).1
      (by decide),
   (forward_decoded initDriverState pongJson .Pong rfl rfl).2 rfl⟩

/-- C7 counterexample: a malformed inbound text frame is not silently
absorbed: with a live consumer the driver forwards a parse-error item,
so the inbound stream does show a consumer-visible item
(witchcraft_client.rs lines 238-244). -/
theorem malformed_item_cex :
    (step initDriverState (.inboundFrame (.text .invalidJson))).inboundItems = [.parseError]
    ∧ (step initDriverState (.inboundFrame (.text .invalidJson))).inboundItems ≠ [] := by
  refine ⟨rfl, by decide⟩

/-- C7 (amended): a malformed or unrecognized inbound frame is logged and
keeps the loop running, but (for a UTF-8 payload, consumer present) it
forwards exactly one parse-error item onto the inbound message stream —
it produces no decoded-message item; a non-UTF-8 text frame produces no
item at all. -/
theorem malformed_error_item (s : DriverState) (p : TextPayload)
    (hrun : s.running = true) (hcons : s.consumerAlive = true)
    (hbad : decodeFails p = true) :
    (step s (.inboundFrame (.text p))).running = true
    ∧ (step s (.inboundFrame (.text p))).inboundItems
        = s.inboundItems ++ (if utf8Ok p then [.parseError] else []) := by
  rw [step_decode_fail s p hrun hcons hbad]
  exact ⟨hrun, rfl⟩

/-- Witness for C7 (amended) at a malformed frame in the initial state. -/
theorem malformed_error_item_witness :
    (step initDriverState (.inboundFrame (.text .invalidJson))).running = true
    ∧ (step initDriverState (.inboundFrame (.text .invalidJson))).inboundItems
        = initDriverState.inboundItems
          ++ (if utf8Ok .invalidJson then [.parseError] else []) :=
  malformed_error_item initDriverState .invalidJson rfl rfl rfl

/-- C6: a Close frame from the peer breaks the loop; after it the driver
processes no further events and the inbound stream receives no further
items. -/
theorem close_terminates (s : DriverState) (es : List DriverEvent)
    (hrun : s.running = true) :
    (step s (.inboundFrame .close)).running = false
    ∧ runDriver (step s (.inboundFrame .close)) es = step s (.inboundFrame .close)
    ∧ (runDriver (step s (.inboundFrame .close)) es).inboundItems = s.inboundItems := by
  have h1 : step s (.inboundFrame .close) = { s with running := false } := by
    simp [step, hrun, handleFrame]
  rw [h1, runDriver_stopped _ es rfl]
  exact ⟨rfl, rfl, rfl⟩

/-- Witness for C6: Close in the initial state, followed by a frame that
would otherwise be delivered. -/
theorem close_terminates_witness :
    (step initDriverState (.inboundFrame .close)).running = false
    ∧ runDriver (step initDriverState (.inboundFrame .close))
        [.inboundFrame (.text (.json connectedJson))]
        = step initDriverState (.inboundFrame .close)
    ∧ (runDriver (step initDriverState (.inboundFrame .close))
        [.inboundFrame (.text (.json connectedJson))]).inboundItems
        = initDriverState.inboundItems :=
  close_terminates initDriverState [.inboundFrame (.text (.json connectedJson))] rfl

/-- In an event trace respecting the keepalive timer's semantics from
initial deadline `d`, every timer fire happens no earlier than `d`. -/
theorem timerValid_fire_ge (es : List DriverEvent) (d n : Nat) (ok : Bool)
    (hv : timerValid d es = true) (hmem : DriverEvent.timerFire n ok ∈ es) :
    d ≤ n := by
  induction es generalizing d with
  | nil => cases hmem
  | cons e es ih =>
    cases hmem with
    | head =>
      simp only [timerValid, Bool.and_eq_true, decide_eq_true_eq] at hv
      exact hv.1
    | tail _ hmem =>
      cases e with
      | timerFire n' ok' =>
        simp only [timerValid, Bool.and_eq_true, decide_eq_true_eq] at hv
        exact le_trans (le_trans hv.1 (Nat.le_add_right n' 30)) (ih _ hv.2 hmem)
      | outgoingMsg m sendOk => exact ih _ (by simpa [timerValid] using hv) hmem
      | outgoingClosed => exact ih _ (by simpa [timerValid] using hv) hmem
      | inboundFrame f => exact ih _ (by simpa [timerValid] using hv) hmem
      | inboundEnded => exact ih _ (by simpa [timerValid] using hv) hmem

/-- C4: in any trace consistent with the timer's 30-second semantics, no
keepalive fire (hence no keepalive send) occurs before the 30-second
mark; when the timer fires and the write succeeds, exactly one Ping —
wire text the ping object — is appended to the socket and the timer is
re-armed 30 seconds ahead; if the write fails the loop terminates. -/
theorem keepalive_timing (es : List DriverEvent) (n : Nat) (ok : Bool)
    (s : DriverState) (hvalid : timerValid 30 es = true)
    (hmem : DriverEvent.timerFire n ok ∈ es) (hrun : s.running = true) :
    30 ≤ n
    ∧ step s (.timerFire n true)
        = { s with sent := s.sent ++ [.Ping], timerDeadline := n + 30 }
    ∧ renderJson (serializeOutgoing .Ping) = "\x7b\"type\":\"ping\"\x7d"
    ∧ step s (.timerFire n false) = { s with running := false } := by
  refine ⟨timerValid_fire_ge es 30 n ok hvalid hmem, ?_, ?_, ?_⟩
  · simp [step, hrun]
  · simp only [serializeOutgoing, renderJson, renderFields]
    rw [show escapeString "type" = "type" from rfl,
        show escapeString "ping" = "ping" from rfl]
    apply String.ext
    simp [String.data_append]
  · simp [step, hrun]

/-- Witness for C4: the earliest valid fire, at exactly the 30-second
mark, from the freshly spawned driver. -/
theorem keepalive_timing_witness :
    30 ≤ 30
    ∧ step initDriverState (.timerFire 30 true)
        = { initDriverState with sent := [.Ping], timerDeadline := 30 + 30 }
    ∧ renderJson (serializeOutgoing .Ping) = "\x7b\"type\":\"ping\"\x7d"
    ∧ step initDriverState (.timerFire 30 false)
        = { initDriverState with running := false } :=
  keepalive_timing [.timerFire 30 true] 30 true initDriverState rfl
    (List.mem_singleton.mpr rfl) rfl

/-- C5: when every outbound-sender handle has been dropped, the driver
drains the already-enqueued outbound messages in FIFO order onto the
socket and then exits cleanly, delivering nothing further inbound. -/
theorem outbound_drop_flush (s : DriverState)
    (queue : List WitchcraftOutgoingMessage) (hrun : s.running = true)
    (hcons : s.consumerAlive = true) :
    (runDriver s (outboundDrainEvents queue)).sent = s.sent ++ queue
    ∧ (runDriver s (outboundDrainEvents queue)).running = false
    ∧ (runDriver s (outboundDrainEvents queue)).inboundItems = s.inboundItems := by
  induction queue generalizing s with
  | nil => simp [outboundDrainEvents, runDriver, step, hrun]
  | cons m queue ih =>
    have hstep : step s (.outgoingMsg m true) = { s with sent := s.sent ++ [m] } := by
      simp [step, hrun]
    have h := ih { s with sent := s.sent ++ [m] } hrun hcons
    have hev : outboundDrainEvents (m :: queue)
        = DriverEvent.outgoingMsg m true :: outboundDrainEvents queue := by
      simp [outboundDrainEvents]
    rw [hev, runDriver, hstep]
    refine ⟨?_, h.2.1, h.2.2⟩
    rw [h.1]
    simp

/-- Witness for C5: two queued messages flushed in order from the fresh
driver state. -/
theorem outbound_drop_flush_witness :
    (runDriver initDriverState
        (outboundDrainEvents [.MarkRead "x", .MarkRead "y"])).sent
      = initDriverState.sent ++ [.MarkRead "x", .MarkRead "y"]
    ∧ (runDriver initDriverState
        (outboundDrainEvents [.MarkRead "x", .MarkRead "y"])).running = false
    ∧ (runDriver initDriverState
        (outboundDrainEvents [.MarkRead "x", .MarkRead "y"])).inboundItems
      = initDriverState.inboundItems :=
  outbound_drop_flush initDriverState [.MarkRead "x", .MarkRead "y"] rfl rfl

/-- The dedup guard `iter().any(|n| n.id == ...)` tests exactly
membership of the id among the held ids. -/
theorem any_id_eq (acc : List WitchcraftNotification) (i : String) :
    acc.any (fun x => x.id = i) = true ↔ i ∈ acc.map (fun x => x.id) := by
  simp [List.any_eq_true, List.mem_map]

/-- The dedup-push over a batch: starting from a duplicate-free held
list, the result is duplicate-free, keeps every already-held id, and
contains the id of every batch item. -/
theorem foldl_insertIfNew_spec (items acc : List WitchcraftNotification)
    (h : (acc.map (fun x => x.id)).Nodup) :
    ((items.foldl insertIfNew acc).map (fun x => x.id)).Nodup
    ∧ (∀ i, i ∈ acc.map (fun x => x.id)
        → i ∈ (items.foldl insertIfNew acc).map (fun x => x.id))
    ∧ (∀ n, n ∈ items
        → n.id ∈ (items.foldl insertIfNew acc).map (fun x => x.id)) := by
  induction items generalizing acc with
  | nil =>
    refine ⟨h, fun i hi => hi, fun n hn => absurd hn (List.not_mem_nil n)⟩
  | cons n items ih =>
    have hstep : ((insertIfNew acc n).map (fun x => x.id)).Nodup
        ∧ (∀ i, i ∈ acc.map (fun x => x.id)
            → i ∈ (insertIfNew acc n).map (fun x => x.id))
        ∧ n.id ∈ (insertIfNew acc n).map (fun x => x.id) := by
      by_cases hc : acc.any (fun x => x.id = n.id) = true
      · exact ⟨by simpa [insertIfNew, hc] using h,
          fun i hi => by simpa [insertIfNew, hc] using hi,
          by simpa [insertIfNew, hc] using (any_id_eq acc n.id).mp hc⟩
      · have hnot : n.id ∉ acc.map (fun x => x.id) :=
          fun hm => hc ((any_id_eq acc n.id).mpr hm)
        refine ⟨?_, fun i hi => ?_, ?_⟩
        · simp only [insertIfNew, hc, if_false, Bool.false_eq_true, List.map_append]
          simp [List.nodup_append, h, hnot]
        · simp [insertIfNew, hc, hi]
        · simp [insertIfNew, hc]
    have hrest := ih (insertIfNew acc n) hstep.1
    refine ⟨by simpa [List.foldl_cons] using hrest.1, fun i hi => ?_, fun x hx => ?_⟩
    · simpa [List.foldl_cons] using hrest.2.1 i (hstep.2.1 i hi)
    · cases hx with
      | head => simpa [List.foldl_cons] using hrest.2.1 n.id hstep.2.2
      | tail _ hx => simpa [List.foldl_cons] using hrest.2.2 x hx

/-- One panel message preserves freedom from duplicate ids, keeps every
already-held id, and absorbs every id the message carries. -/
theorem handleMessage_spec (s : PanelState) (m : WitchcraftMessage)
    (h : (panelIds s).Nodup) :
    (panelIds (handleMessage s m)).Nodup
    ∧ (∀ i, i ∈ panelIds s → i ∈ panelIds (handleMessage s m))
    ∧ (∀ i, i ∈ messageIds m → i ∈ panelIds (handleMessage s m)) := by
  cases m with
  | Connected u ts mth =>
    exact ⟨h, fun i hi => hi, fun i hi => absurd hi (by simp [messageIds])⟩
  | Pong =>
    exact ⟨h, fun i hi => hi, fun i hi => absurd hi (by simp [messageIds])⟩
  | UnreadNotifications c items =>
    have hf := foldl_insertIfNew_spec items s.witchcraft_notifications h
    refine ⟨hf.1, hf.2.1, fun i hi => ?_⟩
    obtain ⟨x, hx, he⟩ := List.mem_map.mp (by simpa [messageIds] using hi)
    subst he
    exact hf.2.2 x hx
  | Notification e d =>
    by_cases hc : s.witchcraft_notifications.any (fun x => x.id = d.id) = true
    · refine ⟨by simpa [handleMessage, hc] using h,
        fun i hi => by simpa [handleMessage, hc] using hi, fun i hi => ?_⟩
      have hid : i = d.id := by simpa [messageIds] using hi
      subst hid
      simpa [handleMessage, hc, panelIds] using (any_id_eq _ d.id).mp hc
    · have hnot : d.id ∉ panelIds s := fun hm => hc ((any_id_eq _ d.id).mpr hm)
      refine ⟨?_, fun i hi => ?_, fun i hi => ?_⟩
      · simp only [handleMessage, hc, if_false, Bool.false_eq_true, panelIds,
          List.map_append] at *
        simp [List.nodup_append, h, hnot]
      · simp only [handleMessage, hc, if_false, Bool.false_eq_true, panelIds,
          List.map_append]
        simp only [panelIds] at hi
        simp [hi]
      · have hid : i = d.id := by simpa [messageIds] using hi
        subst hid
        simp [handleMessage, hc, panelIds]

/-- A whole session preserves freedom from duplicate ids, keeps every
already-held id, and absorbs every observed id. -/
theorem foldl_handleMessage_spec (msgs : List WitchcraftMessage) (s : PanelState)
    (h : (panelIds s).Nodup) :
    (panelIds (msgs.foldl handleMessage s)).Nodup
    ∧ (∀ i, i ∈ panelIds s → i ∈ panelIds (msgs.foldl handleMessage s))
    ∧ (∀ i, i ∈ sessionIds msgs → i ∈ panelIds (msgs.foldl handleMessage s)) := by
  induction msgs generalizing s with
  | nil => exact ⟨h, fun i hi => hi, fun i hi => absurd hi (by simp [sessionIds])⟩
  | cons m msgs ih =>
    have hm := handleMessage_spec s m h
    have hrest := ih (handleMessage s m) hm.1
    refine ⟨hrest.1, fun i hi => hrest.2.1 i (hm.2.1 i hi), fun i hi => ?_⟩
    have hsplit : i ∈ messageIds m ∨ i ∈ sessionIds msgs := by
      simpa [sessionIds, List.mem_append] using hi
    cases hsplit with
    | inl hl => exact hrest.2.1 i (hm.2.2 i hl)
    | inr hr => exact hrest.2.2 i hr

/-- C3: over any session, the consumer-visible collection of
NotificationItems holds each id at most once: every observed id appears
exactly once, and a NotificationItem redelivered with an id already
present leaves the panel unchanged — no new entry and no new toast. -/
theorem panel_dedup (msgs : List WitchcraftMessage) (i : String) :
    (panelIds (runPanel msgs)).Nodup
    ∧ (i ∈ sessionIds msgs → (panelIds (runPanel msgs)).count i = 1)
    ∧ (∀ s e d, d.id ∈ panelIds s → handleMessage s (.Notification e d) = s) := by
  have h := foldl_handleMessage_spec msgs initPanelState
    (by simp [panelIds, initPanelState])
  refine ⟨h.1, fun hi => List.count_eq_one_of_mem h.1 (h.2.2 i hi),
    fun s e d hd => ?_⟩
  have hc : s.witchcraft_notifications.any (fun x => x.id = d.id) = true :=
    (any_id_eq _ d.id).mpr hd
  simp [handleMessage, hc]

/-- Witness for C3: the id "a" delivered twice (once as a fresh item,
once redelivered with different content) appears exactly once. -/
theorem panel_dedup_witness :
    (panelIds (runPanel [WitchcraftMessage.Notification "e" demoItem,
        WitchcraftMessage.Notification "f" demoItem2])).count "a" = 1 :=
  (panel_dedup [WitchcraftMessage.Notification "e" demoItem,
      WitchcraftMessage.Notification "f" demoItem2] "a").2.1 (by decide)
